import Mathlib

/-!
Verification of the wikiupdate subsystem (`src/wikiupdate/wikiupdate/__main__.py`)
of the pipx-scripts repository, against its natural-language design spec.

The Python source is shallowly embedded: every external interaction (network,
filesystem, subprocesses, wall-clock time, user confirmation) is an explicit
oracle parameter, and state mutations that the spec reasons about (checkpoint
writes, resource scale-up/scale-down, downloads, cleanup) are recorded in an
explicit effect trace.  Pure helpers (regex scanning, line parsing, sorting)
are translated directly from the code they model.
-/

/-! ## Character and string helpers (mirroring the Python string/regex work) -/

/-- `startsWith hay needle`: `needle` is a prefix of `hay` (character lists). -/
def startsWith : List Char → List Char → Bool
  | _, [] => true
  | [], _ :: _ => false
  | h :: hs, n :: ns => h == n && startsWith hs ns

/-- `containsSub hay needle`: `needle` occurs contiguously inside `hay`.
Mirrors Python's `needle in hay` on strings. -/
def containsSub (hay needle : List Char) : Bool :=
  match hay with
  | [] => needle.isEmpty
  | _ :: rest => startsWith hay needle || containsSub rest needle

/-- Split on newline characters; a trailing newline yields no empty final
segment, mirroring Python `str.splitlines` on newline-only input. -/
def splitLinesAux (acc : List Char) : List Char → List (List Char)
  | [] => [acc.reverse]
  | c :: rest =>
    if c == '\n' then acc.reverse :: splitLinesAux [] rest
    else splitLinesAux (c :: acc) rest

/-- Python-style `splitlines` (newline separator only). -/
def splitLines (s : List Char) : List (List Char) :=
  match s with
  | [] => []
  | _ =>
    let segs := splitLinesAux [] s
    if segs.getLastD [] = [] then segs.dropLast else segs

/-- Python `\s` class for the inputs in scope (space, tab, CR, LF, VT, FF). -/
def pyIsSpace (c : Char) : Bool :=
  c == ' ' || c == '\t' || c == '\n' || c == '\r' ||
    c == Char.ofNat 11 || c == Char.ofNat 12

/-- Character class `[\d.]` of the progress regex. -/
def isDigitOrDot (c : Char) : Bool := c.isDigit || c == '.'

/-- Decimal digit characters to a natural number (leading digits of a line). -/
def digitsToNat (ds : List Char) : Nat :=
  ds.foldl (fun n c => 10 * n + (c.toNat - 48)) 0

/-- Greedy `p+`: the (nonempty) maximal prefix satisfying `p`, and the rest. -/
def span1 (p : Char → Bool) (s : List Char) : Option (List Char × List Char) :=
  let sp := s.span p
  if sp.1 = [] then none else some sp

/-! ## ReleaseLocator: `get_latest_dump_date` (source lines 69-98) -/

/-- One scan step of `re.findall(r'(\d{8})/', text)`: does the list start with
exactly eight digits followed by a slash? -/
def dateHeadOk (l : List Char) : Bool :=
  (l.take 8).length == 8 && (l.take 8).all Char.isDigit &&
    (l.drop 8).head? == some '/'

/-- Scanner for `re.findall(r'(\d{8})/', text)` with a fuel argument (always
called with fuel at least the list length, so the fuel never runs out):
non-overlapping left-to-right matches, resuming after each match, advancing
one character on a mismatch. -/
def findallAux : Nat → List Char → List String
  | 0, _ => []
  | _ + 1, [] => []
  | fuel + 1, c :: rest =>
    if dateHeadOk (c :: rest) then
      String.mk ((c :: rest).take 8) :: findallAux fuel (rest.drop 8)
    else
      findallAux fuel rest

/-- `re.findall(r'(\d{8})/', text)` (source line 79). -/
def findall_date8 (s : List Char) : List String := findallAux s.length s

/-- Python string `<`: strict lexicographic order by code point, at the
character level. -/
def charLt (a b : Char) : Bool := Nat.blt a.toNat b.toNat

/-- Python string `<`: strict lexicographic order by code point, on
character lists. -/
def listCharLt : List Char → List Char → Bool
  | [], [] => false
  | [], _ :: _ => true
  | _ :: _, [] => false
  | a :: as, b :: bs => charLt a b || (a == b && listCharLt as bs)

/-- Python string `<` (strict lexicographic order by code point). -/
def strLt (a b : String) : Bool := listCharLt a.data b.data

/-- Insert into a strictly descending list, dropping duplicates; folding this
over the match list realises Python's `sorted(set(dates), reverse=True)`. -/
def insertDesc (x : String) : List String → List String
  | [] => [x]
  | y :: ys =>
    if strLt x y then y :: insertDesc x ys
    else if x = y then y :: ys
    else x :: y :: ys

/-- `sorted(set(l), reverse=True)` (source line 80). -/
def sortDescDedup (l : List String) : List String :=
  l.foldr insertDesc []

/-- The per-candidate completeness probe: `requests.head` on the md5 manifest
URL succeeded with HTTP status 200 (source lines 84-91).  `none` models a
`requests.RequestException`. -/
def probeHit (head : String → Option Nat) (d : String) : Bool :=
  match head d with
  | some code => code == 200
  | none => false

/-- Walk the sorted candidates, returning the first whose probe hits; a probe
exception or non-200 status just moves on (source lines 83-91). -/
def probeFirst (head : String → Option Nat) : List String → Option String
  | [] => none
  | d :: rest =>
    match head d with
    | some code => if code == 200 then some d else probeFirst head rest
    | none => probeFirst head rest

/-- Remote-index oracle for the locator: the directory-listing body (`none`
models an unreachable index, i.e. `requests.RequestException` or a bad
status via `raise_for_status`), and the per-date HEAD probe. -/
structure RemoteIndex where
  listing : Option String
  headStatus : String → Option Nat

/-- `WikiUpdater.get_latest_dump_date` (source lines 69-98). -/
def get_latest_dump_date (env : RemoteIndex) : Option String :=
  match env.listing with
  | none => none
  | some text =>
    probeFirst env.headStatus (sortDescDedup (findall_date8 text.data))

/-! ## Progress parsing and the import read loop (source lines 566-604) -/

/-- `re.match(r'^(\d+)\s+\(([\d.]+)\s+pages/sec', line)` (source line 574).
All adjacent token classes are disjoint, so greedy maximal-munch parsing is
exactly the regex's backtracking behaviour.  Returns the integer count and
the raw rate text on a match. -/
def parseProgressLine (line : List Char) : Option (Nat × String) :=
  match span1 Char.isDigit line with
  | none => none
  | some (ds, r1) =>
    match span1 pyIsSpace r1 with
    | none => none
    | some (_, r2) =>
      match r2 with
      | '(' :: r3 =>
        match span1 isDigitOrDot r3 with
        | none => none
        | some (rs, r4) =>
          match span1 pyIsSpace r4 with
          | none => none
          | some (_, r5) =>
            if startsWith r5 ("pages/sec").data then
              some (digitsToNat ds, String.mk rs)
            else none
      | _ => none

/-- Persisted checkpoint statuses written by `save_progress` calls. -/
inductive PStatus where
  | importing
  | completed
  | failed
  | error
  deriving DecidableEq

/-- Observable side effects of a run, in occurrence order.  `save st pages`
is a `save_progress` write (the error-state write omits `pages_imported`,
hence the `Option`); reads and console output are not effects. -/
inductive Effect where
  | save (st : PStatus) (pages : Option Nat)
  | scaleUp
  | scaleDown
  | download (tag : String)
  | decompress
  | rebuild
  | cleanup
  | clearCk
  deriving DecidableEq

/-- In-memory loop state: `pages_count` and `current_rate` (raw text)
(source lines 542, 576-577). -/
structure LoopSt where
  pages : Nat
  rate : String
  deriving DecidableEq

def initLoopSt : LoopSt := { pages := 0, rate := "0.0" }

/-- One iteration of the read loop for one output line: on a progress match
the in-memory pair is overwritten; a checkpoint snapshot is persisted only
inside the match branch, and only when the 30-second flush is due (the
`fl` oracle), carrying the just-updated count (source lines 568-604). -/
def stepLine (fl : Bool) (st : LoopSt) (line : String) : LoopSt × List Effect :=
  match parseProgressLine line.data with
  | none => (st, [])
  | some (n, r) =>
    let st2 : LoopSt := { pages := n, rate := r }
    if fl then (st2, [Effect.save PStatus.importing (some n)]) else (st2, [])

/-- The read loop as a trace: for each line, the loop state after it and the
effects it emitted.  `sched i` is the flush-due oracle for line `i`. -/
def loopTrace (sched : Nat → Bool) : Nat → LoopSt → List String → List (LoopSt × List Effect)
  | _, _, [] => []
  | i, st, l :: rest =>
    let p := stepLine (sched i) st l
    p :: loopTrace sched (i + 1) p.1 rest

/-- Concatenate the per-line effect lists. -/
def concatAll : List (List Effect) → List Effect :=
  fun ls => ls.foldr (· ++ ·) []

/-- Final loop state and full effect list of the read loop. -/
def runLoop (sched : Nat → Bool) (lines : List String) : LoopSt × List Effect :=
  let tr := loopTrace sched 0 initLoopSt lines
  ((tr.map Prod.fst).getLastD initLoopSt, concatAll (tr.map Prod.snd))

/-- Pages counter value after each line. -/
def pagesOf (tr : List (LoopSt × List Effect)) : List Nat :=
  tr.map (fun pr => pr.1.pages)

/-- Boolean check that a list of naturals is non-decreasing. -/
def nonDecreasing : List Nat → Bool
  | [] => true
  | [_] => true
  | a :: b :: rest => Nat.ble a b && nonDecreasing (b :: rest)

/-- Every checkpoint snapshot emitted at some line records a page count that
is at most the in-memory counter at that moment. -/
def savesBounded (tr : List (LoopSt × List Effect)) : Bool :=
  tr.all fun pr =>
    pr.2.all fun e =>
      match e with
      | Effect.save _ (some p) => Nat.ble p pr.1.pages
      | _ => true

/-! ## ImportPipeline: `import_dump` (source lines 477-678) -/

/-- Environment/oracles of one `import_dump` run: is the docker service up;
the ingestor's combined output lines; the flush-due schedule; whether the
orchestration body raises before the read loop (caught at line 664);
whether the inner stream read raises after `k` lines (caught at line 606,
execution then proceeds to the exit-code checks); and the two subprocess
exit codes. -/
structure ImportEnv where
  dockerRunning : Bool
  lines : List String
  flushSched : Nat → Bool
  spawnRaises : Bool
  streamErrorAfter : Option Nat
  bunzipRc : Nat
  importRc : Nat

/-- `WikiUpdater.import_dump` (source lines 477-678) as result + effect trace.

Faithful branch structure: the docker precondition aborts before any effect;
`scale_up_resources` is attempted unconditionally afterwards (its own failure
only warns, line 485-486); the initial `importing` checkpoint is written
(line 500); an uncaught exception in the `try` body writes an `error`
checkpoint (with no page count) and scales down (lines 664-678); after the
loop, a nonzero decompressor exit returns failure immediately (lines
614-619) — with no checkpoint write and no scale-down, exactly as in the
source; otherwise the ingestor exit code decides `completed`/`failed`, each
written before scale-down (lines 621-662). -/
def import_dump (env : ImportEnv) : Bool × List Effect :=
  if env.dockerRunning = false then (false, [])
  else
    let pre := [Effect.scaleUp, Effect.save PStatus.importing (some 0)]
    if env.spawnRaises then
      (false, pre ++ [Effect.save PStatus.error none, Effect.scaleDown])
    else
      let ls :=
        match env.streamErrorAfter with
        | none => env.lines
        | some k => env.lines.take k
      let lr := runLoop env.flushSched ls
      let effs := pre ++ lr.2
      if env.bunzipRc ≠ 0 then
        (false, effs)
      else if env.importRc = 0 then
        (true, effs ++ [Effect.save PStatus.completed (some lr.1.pages), Effect.scaleDown])
      else
        (false, effs ++ [Effect.save PStatus.failed (some lr.1.pages), Effect.scaleDown])

/-! ## IntegrityVerifier: `verify_checksums` (source lines 184-233) -/

/-- `WIKI_LANG` (source line 29). -/
def wikiLang : String := "enwiki"

/-- `DUMP_TYPE` (source line 30). -/
def dumpType : String := "pages-articles-multistream"

/-- Oracles for one `verify_checksums` call: the manifest file content
(`none` models an absent file), whether reading it raises, whether writing
the temporary checksum file raises, and the `md5sum -c` subprocess result
(`none` models an exception, e.g. a missing tool; otherwise exit code and
captured stdout). -/
structure VerifyEnv where
  manifestContent : Option String
  readRaises : Bool
  tmpWriteRaises : Bool
  md5run : Option (Nat × String)

/-- The manifest lines kept for verification: those mentioning the dump
archive or index filename for this date (source lines 199-203). -/
def relevantLines (dump_date content : String) : List (List Char) :=
  let base := wikiLang ++ "-" ++ dump_date ++ "-" ++ dumpType
  (splitLines content.data).filter (fun line =>
    containsSub line (base ++ ".xml.bz2").data ||
    containsSub line (base ++ "-index.txt.bz2").data)

/-- `WikiUpdater.verify_checksums` (source lines 184-233): returns `false`
only when `md5sum -c` ran and reported a mismatch (a FAILED line in stdout
or a nonzero exit); an absent manifest, no relevant lines, or any exception
during verification yields `true` (source lines 188-190, 205-207, 231-233). -/
def verify_checksums (dump_date : String) (env : VerifyEnv) : Bool :=
  match env.manifestContent with
  | none => true
  | some content =>
    if env.readRaises then true
    else if relevantLines dump_date content = [] then true
    else if env.tmpWriteRaises then true
    else
      match env.md5run with
      | none => true
      | some (code, out) =>
        if containsSub out.data ("FAILED").data || code != 0 then false
        else true

/-! ## Downloader: `download_file` (source lines 118-159) -/

/-- Outcome of the streamed transfer: either the full content arrives, or an
exception is raised after some (possibly empty) portion was written. -/
inductive Transfer where
  | ok (content : List Nat)
  | failAfter (written : List Nat)

/-- `WikiUpdater.download_file` (source lines 118-159), as
(returned success, destination file content after the call, bytes written by
this call).  If the destination exists and force-download is off, the call
returns success immediately (lines 120-122).  Otherwise the transfer streams
into the destination; on any exception the destination is unlinked if it
exists, and the call returns failure (lines 155-159). -/
def download_file (force : Bool) (dest : Option (List Nat)) (t : Transfer) :
    Bool × Option (List Nat) × Nat :=
  if dest.isSome && !force then (true, dest, 0)
  else
    match t with
    | Transfer.ok content => (true, some content, content.length)
    | Transfer.failAfter written => (false, none, written.length)

/-! ## Checkpoint persistence: `load_progress` (source lines 46-54) -/

/-- The fields of the persisted checkpoint record that drive control flow in
`run` (status string and dump date; the remaining fields are display-only). -/
structure CheckRec where
  status : String
  dumpDate : Option String

/-- State of the checkpoint file on disk: absent, present but unparseable
(any exception while opening/parsing), or a parsed record. -/
inductive CkFile where
  | absent
  | corrupt
  | valid (r : CheckRec)

/-- `WikiUpdater.load_progress` (source lines 46-54): `none` is the empty
dict `\x7b\x7d` returned when the file is absent or parsing raises. -/
def load_progress : CkFile → Option CheckRec
  | CkFile.absent => none
  | CkFile.corrupt => none
  | CkFile.valid r => some r

/-! ## Orchestrator: `run` (source lines 773-925) -/

/-- Oracles of one top-level `run`: the two mode flags, the checkpoint file,
the locally installed and latest remote dump dates (as resolved by
`get_current_dump_date`/`get_latest_dump_date`), success of the two critical
downloads, the verification oracles, decompression success, the two
confirmation prompts, the import-phase oracles, and index-rebuild success. -/
structure RunEnv where
  rebuildOnly : Bool
  force : Bool
  ckFile : CkFile
  currentDate : Option String
  latestDate : Option String
  dlXml : Bool
  dlIndex : Bool
  venv : VerifyEnv
  decompressOk : Bool
  confirmResume : Bool
  confirmImport : Bool
  ienv : ImportEnv
  rebuildOk : Bool

/-- The tail of `run` from `import_dump` on (source lines 901-925): import
failure aborts with exit 1; rebuild failure is only a warning; cleanup and
checkpoint clearing always follow a successful import. -/
def runImportPhase (env : RunEnv) (effs : List Effect) : Nat × List Effect :=
  let ir := import_dump env.ienv
  let effs := effs ++ ir.2
  if ir.1 = false then (1, effs)
  else (0, effs ++ [Effect.rebuild, Effect.cleanup, Effect.clearCk])

/-- The fresh-download path of `run` (source lines 875-899 plus the shared
tail): download archive and index (each failure aborts), download checksums
(result ignored, line 180), verify, decompress the index, confirm, import. -/
def runDownloadPhase (env : RunEnv) (latest : String) : Nat × List Effect :=
  let e1 := [Effect.download "xml"]
  if env.dlXml = false then (1, e1)
  else
    let e2 := e1 ++ [Effect.download "index"]
    if env.dlIndex = false then (1, e2)
    else
      let e3 := e2 ++ [Effect.download "md5"]
      if verify_checksums latest env.venv = false then (1, e3)
      else
        let e4 := e3 ++ [Effect.decompress]
        if env.decompressOk = false then (1, e4)
        else if env.confirmImport = false then (0, e4)
        else runImportPhase env e4

/-- `WikiUpdater.run` (source lines 773-925) as exit code + effect trace.
Display-only work (tables, disk-space reads, status printouts) emits no
effects.  Branch structure mirrors the source: rebuild-only mode first
(lines 780-792); unreachable remote index aborts (lines 838-841); when the
local dump already equals the latest and no force flag is set, the
checkpoint decides between a no-op exit, the confirm-gated resume path
(skipping download/verify), and a plain no-op (lines 844-870); otherwise
the fresh-download path runs (lines 871-925). -/
def run (env : RunEnv) : Nat × List Effect :=
  if env.rebuildOnly then
    if env.ienv.dockerRunning = false then (1, [])
    else if env.rebuildOk then (0, [Effect.rebuild]) else (1, [Effect.rebuild])
  else
    match env.latestDate with
    | none => (1, [])
    | some latest =>
      if env.currentDate = some latest ∧ env.force = false then
        match load_progress env.ckFile with
        | some r =>
          if r.dumpDate = some latest then
            if r.status = "completed" then (0, [])
            else if r.status = "importing" ∨ r.status = "failed" ∨ r.status = "error" then
              if env.confirmResume then runImportPhase env [] else (0, [])
            else (0, [])
          else (0, [])
        | none => (0, [])
      else
        runDownloadPhase env latest

/-! ## Trace observations used by the claims -/

/-- Is this effect a checkpoint write with the given status? -/
def isSaveOf (st : PStatus) : Effect → Bool
  | Effect.save s _ => s == st
  | _ => false

/-- Is this effect any checkpoint write? -/
def isAnySave : Effect → Bool
  | Effect.save _ _ => true
  | _ => false

/-- Does this effect modify the persisted checkpoint file? -/
def touchesCk : Effect → Bool
  | Effect.save _ _ => true
  | Effect.clearCk => true
  | _ => false

/-- Concrete import run hitting the decompressor-failure branch: service up,
no output lines, no exception, decompressor exits 2, ingestor exits 0. -/
def envDecompFail : ImportEnv :=
  { dockerRunning := true, lines := [], flushSched := fun _ => false,
    spawnRaises := false, streamErrorAfter := none, bunzipRc := 2, importRc := 0 }

/-- Concrete import run hitting the decompressor-failure branch after one
progress line was parsed and flushed: decompressor exits 1, ingestor exits 0. -/
def envDecompFail2 : ImportEnv :=
  { dockerRunning := true,
    lines := ["1000 (202.14 pages/sec 202.14 revs/sec)"],
    flushSched := fun _ => true,
    spawnRaises := false, streamErrorAfter := none, bunzipRc := 1, importRc := 0 }

/-- The three simulated ingestor lines of the progress-monotonicity test. -/
def unitLines : List String :=
  ["1000 (50.0 units/sec)", "2500 (60.0 units/sec)", "4000 (55.0 units/sec)"]

/-- Concrete verification oracles with a manifest entry for the downloaded
archive whose hash check reports FAILED (nonzero exit as well). -/
def venvMismatch : VerifyEnv :=
  { manifestContent :=
      some "0123abcd  enwiki-20240901-pages-articles-multistream.xml.bz2",
    readRaises := false, tmpWriteRaises := false,
    md5run :=
      some (1, "enwiki-20240901-pages-articles-multistream.xml.bz2: FAILED") }

/-- An import environment that would succeed (never reached in the checksum
gate scenario). -/
def ienvIdle : ImportEnv :=
  { dockerRunning := true, lines := [], flushSched := fun _ => false,
    spawnRaises := false, streamErrorAfter := none, bunzipRc := 0, importRc := 0 }

/-- A fresh-download run (no local dump) whose checksum verification fails. -/
def envChecksumGate : RunEnv :=
  { rebuildOnly := false, force := false, ckFile := CkFile.absent,
    currentDate := none, latestDate := some "20240901",
    dlXml := true, dlIndex := true, venv := venvMismatch,
    decompressOk := true, confirmResume := true, confirmImport := true,
    ienv := ienvIdle, rebuildOk := true }

/-- A run where the local dump equals the latest remote dump and the
checkpoint records a completed import of that dump. -/
def envCompleted : RunEnv :=
  { rebuildOnly := false, force := false,
    ckFile := CkFile.valid { status := "completed", dumpDate := some "20240901" },
    currentDate := some "20240901", latestDate := some "20240901",
    dlXml := true, dlIndex := true, venv := venvMismatch,
    decompressOk := true, confirmResume := true, confirmImport := true,
    ienv := ienvIdle, rebuildOk := true }

/-- A concrete remote directory listing. -/
def listingW : String := "pre20240901/mid20240801/x20240901/"

/-- A concrete remote index: the newest candidate has no complete manifest
(HTTP 404 on the probe), the older one does (HTTP 200). -/
def remoteW : RemoteIndex :=
  { listing := some listingW,
    headStatus := fun d => if d = "20240901" then some 404 else some 200 }


/-! ## Evaluation checks of the pure helpers -/

theorem parseProgressLine_match_example :
    parseProgressLine ("1000 (202.14 pages/sec 202.14 revs/sec)").data
      = some (1000, "202.14") := by decide

theorem findall_date8_example :
    findall_date8 ("x20240801/20240901/20240801/zz123/").data
      = ["20240801", "20240901", "20240801"] := by decide

theorem sortDescDedup_example :
    sortDescDedup ["20240801", "20240901", "20240801"]
      = ["20240901", "20240801"] := by decide

/-! ## Order lemmas for the lexicographic comparison -/

theorem charToNat_inj {a b : Char} (h : a.toNat = b.toNat) : a = b :=
  Char.eq_of_val_eq (UInt32.eq_of_toBitVec_eq (BitVec.eq_of_toNat_eq h))

theorem charLt_iff {a b : Char} : charLt a b = true ↔ a.toNat < b.toNat := by
  simp [charLt, Nat.blt_eq]

theorem listCharLt_trans :
    ∀ (as bs cs : List Char), listCharLt as bs = true → listCharLt bs cs = true →
      listCharLt as cs = true := by
  intro as
  induction as with
  | nil =>
    intro bs cs h1 h2
    cases bs with
    | nil => simp [listCharLt] at h1
    | cons b bs =>
      cases cs with
      | nil => simp [listCharLt] at h2
      | cons c cs => simp [listCharLt]
  | cons a as ih =>
    intro bs cs h1 h2
    cases bs with
    | nil => simp [listCharLt] at h1
    | cons b bs =>
      cases cs with
      | nil => simp [listCharLt] at h2
      | cons c cs =>
        simp only [listCharLt, Bool.or_eq_true, Bool.and_eq_true, beq_iff_eq,
          charLt_iff] at h1 h2 ⊢
        rcases h1 with h1 | ⟨rfl, h1⟩
        · rcases h2 with h2 | ⟨rfl, h2⟩
          · exact Or.inl (Nat.lt_trans h1 h2)
          · exact Or.inl h1
        · rcases h2 with h2 | ⟨rfl, h2⟩
          · exact Or.inl h2
          · exact Or.inr ⟨rfl, ih bs cs h1 h2⟩

theorem listCharLt_total :
    ∀ (as bs : List Char), listCharLt as bs = false → as ≠ bs →
      listCharLt bs as = true := by
  intro as
  induction as with
  | nil =>
    intro bs h hne
    cases bs with
    | nil => exact absurd rfl hne
    | cons b bs => simp [listCharLt] at h
  | cons a as ih =>
    intro bs h hne
    cases bs with
    | nil => simp [listCharLt]
    | cons b bs =>
      simp only [listCharLt, Bool.or_eq_false_iff, Bool.and_eq_false_iff] at h
      obtain ⟨h1, h2⟩ := h
      have hlt : ¬ a.toNat < b.toNat := fun hc =>
        Bool.noConfusion ((charLt_iff.mpr hc).symm.trans h1)
      simp only [listCharLt, Bool.or_eq_true, Bool.and_eq_true, beq_iff_eq,
        charLt_iff]
      by_cases hab : a = b
      · subst hab
        have hlist : listCharLt as bs = false := by
          rcases h2 with h2 | h2
          · simp at h2
          · exact h2
        have hne2 : as ≠ bs := fun hh => hne (by rw [hh])
        exact Or.inr ⟨rfl, ih bs hlist hne2⟩
      · left
        rcases Nat.lt_or_ge b.toNat a.toNat with hg | hg
        · exact hg
        · have : a.toNat = b.toNat := by omega
          exact absurd (charToNat_inj this) hab

theorem strLt_trans {a b c : String} (h1 : strLt a b = true) (h2 : strLt b c = true) :
    strLt a c = true :=
  listCharLt_trans a.data b.data c.data h1 h2

theorem strLt_total {a b : String} (h : strLt a b = false) (hne : a ≠ b) :
    strLt b a = true :=
  listCharLt_total a.data b.data h (fun hd => hne (String.ext hd))

/-! ## Sorting lemmas: `sortDescDedup` is strictly descending and keeps
exactly the elements of its input -/

theorem insertDesc_eq_of_lt (x y : String) (ys : List String)
    (h1 : strLt x y = true) :
    insertDesc x (y :: ys) = y :: insertDesc x ys := by
  simp [insertDesc, h1]

theorem insertDesc_eq_of_eq (x : String) (ys : List String)
    (h1 : strLt x x = false) :
    insertDesc x (x :: ys) = x :: ys := by
  simp [insertDesc, h1]

theorem insertDesc_eq_of_gt (x y : String) (ys : List String)
    (h1 : strLt x y = false) (h2 : x ≠ y) :
    insertDesc x (y :: ys) = x :: y :: ys := by
  simp [insertDesc, h1, h2]

theorem insertDesc_mem (x s : String) (l : List String) :
    s ∈ insertDesc x l ↔ s = x ∨ s ∈ l := by
  induction l with
  | nil => simp [insertDesc]
  | cons y ys ih =>
    cases h1 : strLt x y with
    | true =>
      rw [insertDesc_eq_of_lt x y ys h1, List.mem_cons, ih, List.mem_cons]
      tauto
    | false =>
      by_cases h2 : x = y
      · subst h2
        rw [insertDesc_eq_of_eq x ys h1]
        simp only [List.mem_cons]
        tauto
      · rw [insertDesc_eq_of_gt x y ys h1 h2]
        simp [List.mem_cons]

theorem insertDesc_pairwise (x : String) (l : List String)
    (h : l.Pairwise (fun a b => strLt b a = true)) :
    (insertDesc x l).Pairwise (fun a b => strLt b a = true) := by
  induction l with
  | nil => simp [insertDesc]
  | cons y ys ih =>
    rw [List.pairwise_cons] at h
    obtain ⟨hy, hys⟩ := h
    cases h1 : strLt x y with
    | true =>
      rw [insertDesc_eq_of_lt x y ys h1, List.pairwise_cons]
      constructor
      · intro b hb
        rcases (insertDesc_mem x b ys).mp hb with rfl | hb
        · exact h1
        · exact hy b hb
      · exact ih hys
    | false =>
      by_cases h2 : x = y
      · subst h2
        rw [insertDesc_eq_of_eq x ys h1]
        exact List.pairwise_cons.mpr ⟨hy, hys⟩
      · rw [insertDesc_eq_of_gt x y ys h1 h2, List.pairwise_cons]
        constructor
        · intro b hb
          rcases List.mem_cons.mp hb with rfl | hb
          · exact strLt_total h1 h2
          · exact strLt_trans (hy b hb) (strLt_total h1 h2)
        · exact List.pairwise_cons.mpr ⟨hy, hys⟩

theorem sortDescDedup_pairwise (l : List String) :
    (sortDescDedup l).Pairwise (fun a b => strLt b a = true) := by
  induction l with
  | nil => simp [sortDescDedup]
  | cons x xs ih => exact insertDesc_pairwise x (sortDescDedup xs) ih

theorem sortDescDedup_mem (l : List String) (s : String) :
    s ∈ sortDescDedup l ↔ s ∈ l := by
  induction l with
  | nil => simp [sortDescDedup]
  | cons x xs ih =>
    show s ∈ insertDesc x (sortDescDedup xs) ↔ _
    rw [insertDesc_mem, ih, List.mem_cons]

theorem probeFirst_eq_find (head : String → Option Nat) (l : List String) :
    probeFirst head l = l.find? (probeHit head) := by
  induction l with
  | nil => rfl
  | cons d rest ih =>
    cases hh : head d with
    | none => simp [probeFirst, List.find?, probeHit, hh, ih]
    | some code =>
      by_cases hc : code == 200
      · simp [probeFirst, List.find?, probeHit, hh, hc]
      · simp only [Bool.not_eq_true] at hc
        simp [probeFirst, List.find?, probeHit, hh, hc, ih]

/-! ## Claim theorems -/

/-- C1: the spec claims that every run of `import_dump` that reaches the
resource scale-up step invokes scale-down exactly once before returning, for
every terminal outcome — Completed, Failed (including a decompressor
failure), or Error.  The code violates this on the decompressor-failure
path: in the concrete run `envDecompFail` (service up, decompressor exits
2, ingestor exits 0) scale-up is reached, the run returns failure, and
scale-down is invoked zero times (the early `return False` at source lines
614-619 precedes every `scale_down_resources` call). -/
theorem import_dump_decompFail_skips_scaleDown :
    (import_dump envDecompFail).1 = false ∧
    Effect.scaleUp ∈ (import_dump envDecompFail).2 ∧
    (import_dump envDecompFail).2.count Effect.scaleDown = 0 := by decide

/-- C3: the spec claims a nonzero decompressor exit marks the persisted
Checkpoint `Failed` (with the decompressor's stderr attached) and returns
failure.  The code does return failure, but never writes a `failed`
checkpoint: on the concrete run `envDecompFail2` (one progress line parsed
and flushed, decompressor exits 1) the complete effect trace ends at the
periodic `importing` snapshot, so the checkpoint file is left saying
`importing`, and no `failed` record (stderr or otherwise) is ever
persisted. -/
theorem import_dump_decompFail_checkpoint :
    (import_dump envDecompFail2).1 = false ∧
    (import_dump envDecompFail2).2 =
      [Effect.scaleUp, Effect.save PStatus.importing (some 0),
       Effect.save PStatus.importing (some 1000)] ∧
    (import_dump envDecompFail2).2.filter (isSaveOf PStatus.failed) = [] := by
  decide

/-- C4: feeding the three simulated ingestor lines (in order) to the
progress-parsing loop, the in-memory pages counter is non-decreasing across
lines and every checkpoint snapshot persisted during the loop records a
page count bounded by the in-memory counter at the moment of the snapshot,
for every 30-second flush schedule.  (These particular lines do not match
the code's progress pattern — it requires `pages/sec` after the rate — so
the counter stays 0 and no snapshot is emitted, and both properties hold.) -/
theorem progress_loop_monotone (sched : Nat → Bool) :
    nonDecreasing (pagesOf (loopTrace sched 0 initLoopSt unitLines)) = true ∧
    savesBounded (loopTrace sched 0 initLoopSt unitLines) = true := by
  have h1 : parseProgressLine ("1000 (50.0 units/sec)").data = none := by decide
  have h2 : parseProgressLine ("2500 (60.0 units/sec)").data = none := by decide
  have h3 : parseProgressLine ("4000 (55.0 units/sec)").data = none := by decide
  have ht : loopTrace sched 0 initLoopSt unitLines
      = [(initLoopSt, []), (initLoopSt, []), (initLoopSt, [])] := by
    simp [unitLines, loopTrace, stepLine, h1, h2, h3]
  rw [ht]
  exact ⟨by decide, by decide⟩

/-- C5: the release locator deduplicates the candidate versions from the
directory listing, sorts them in strictly descending (lexicographic) order,
and returns the first candidate whose per-version checksum-manifest
existence probe succeeds (HTTP 200); it returns `none` exactly when the
remote index is unreachable or no candidate has such a marker. -/
theorem get_latest_dump_date_spec (env : RemoteIndex) :
    (env.listing = none → get_latest_dump_date env = none) ∧
    (∀ text, env.listing = some text →
      get_latest_dump_date env
        = (sortDescDedup (findall_date8 text.data)).find? (probeHit env.headStatus) ∧
      (sortDescDedup (findall_date8 text.data)).Pairwise (fun a b => strLt b a = true) ∧
      (∀ s, s ∈ sortDescDedup (findall_date8 text.data) ↔ s ∈ findall_date8 text.data) ∧
      (get_latest_dump_date env = none ↔
        ∀ d ∈ sortDescDedup (findall_date8 text.data),
          probeHit env.headStatus d = false)) := by
  constructor
  · intro h
    simp [get_latest_dump_date, h]
  · intro text h
    have hg : get_latest_dump_date env
        = probeFirst env.headStatus (sortDescDedup (findall_date8 text.data)) := by
      simp [get_latest_dump_date, h]
    refine ⟨?_, sortDescDedup_pairwise _, fun s => sortDescDedup_mem _ s, ?_⟩
    · rw [hg, probeFirst_eq_find]
    · rw [hg, probeFirst_eq_find, List.find?_eq_none]
      constructor
      · intro hh d hd
        have := hh d hd
        simpa using this
      · intro hh d hd
        simp [hh d hd]

/-- C5 witness: on the concrete listing `listingW` with probe `remoteW`,
the locator equals first-hit search over the sorted deduplicated candidates,
and concretely returns the older version `20240801` because the newest
candidate's probe returns 404. -/
theorem get_latest_dump_date_spec_witness :
    get_latest_dump_date remoteW
      = (sortDescDedup (findall_date8 listingW.data)).find? (probeHit remoteW.headStatus) ∧
    get_latest_dump_date remoteW = some "20240801" :=
  ⟨((get_latest_dump_date_spec remoteW).2 listingW rfl).1, by decide⟩

/-- C6: every download invocation that actually starts a transfer (the
destination was absent, or force-download is set) and fails mid-transfer
returns failure with the partial destination file deleted, and consequently
a subsequent invocation finds no destination file, so it does not take the
exists-so-skip branch and performs the full transfer. -/
theorem download_file_failure_cleanup (force : Bool) (dest : Option (List Nat))
    (w : List Nat) (h : dest = none ∨ force = true) :
    (download_file force dest (Transfer.failAfter w)).1 = false ∧
    (download_file force dest (Transfer.failAfter w)).2.1 = none ∧
    ∀ (force2 : Bool) (c : List Nat),
      download_file force2 (download_file force dest (Transfer.failAfter w)).2.1
        (Transfer.ok c) = (true, some c, c.length) := by
  rcases h with rfl | rfl
  · exact ⟨rfl, rfl, fun f2 c => rfl⟩
  · refine ⟨?_, ?_, fun f2 c => ?_⟩ <;> simp [download_file]

/-- C6 witness: a failed transfer into an absent destination at a concrete
input. -/
theorem download_file_failure_cleanup_witness :
    ((none : Option (List Nat)) = none ∨ false = true) ∧
    ((download_file false none (Transfer.failAfter [7])).1 = false ∧
     (download_file false none (Transfer.failAfter [7])).2.1 = none ∧
     ∀ (force2 : Bool) (c : List Nat),
       download_file force2
         (download_file false none (Transfer.failAfter [7])).2.1
         (Transfer.ok c) = (true, some c, c.length)) :=
  ⟨Or.inl rfl, download_file_failure_cleanup false none [7] (Or.inl rfl)⟩

/-- C7: if the destination file already exists and force-download is off,
the download call returns success, transfers zero bytes, and leaves the
destination file unchanged — whatever the network would have done. -/
theorem download_file_skip_idempotent (c : List Nat) (t : Transfer) :
    download_file false (some c) t = (true, some c, 0) := rfl

/-- C9: loading the checkpoint is a total function of the file state: an
absent file and an unparseable file both yield the empty record (no prior
run), and a valid file yields its parsed record. -/
theorem load_progress_total :
    load_progress CkFile.corrupt = load_progress CkFile.absent ∧
    load_progress CkFile.absent = none ∧
    ∀ r : CheckRec, load_progress (CkFile.valid r) = some r :=
  ⟨rfl, rfl, fun _ => rfl⟩

/-- C10: checksum verification returns failure exactly when the external
hash check actually ran and reported a mismatch (a FAILED line in its
stdout or a nonzero exit); in every other case — manifest absent, manifest
read error, manifest listing none of the downloaded files, temp-file write
error, or the hash tool itself raising — it returns success. -/
theorem verify_checksums_false_iff (d : String) (env : VerifyEnv) :
    verify_checksums d env = false ↔
      ∃ content code out,
        env.manifestContent = some content ∧
        env.readRaises = false ∧
        relevantLines d content ≠ [] ∧
        env.tmpWriteRaises = false ∧
        env.md5run = some (code, out) ∧
        (containsSub out.data ("FAILED").data = true ∨ code ≠ 0) := by
  constructor
  · intro h
    cases hm : env.manifestContent with
    | none => simp [verify_checksums, hm] at h
    | some content =>
      cases hr : env.readRaises with
      | true => simp [verify_checksums, hm, hr] at h
      | false =>
        by_cases hrel : relevantLines d content = []
        · simp [verify_checksums, hm, hr, hrel] at h
        · cases ht : env.tmpWriteRaises with
          | true => simp [verify_checksums, hm, hr, hrel, ht] at h
          | false =>
            cases hmd : env.md5run with
            | none => simp [verify_checksums, hm, hr, hrel, ht, hmd] at h
            | some pr =>
              obtain ⟨code, out⟩ := pr
              refine ⟨content, code, out, rfl, rfl, hrel, rfl, rfl, ?_⟩
              by_cases hf : containsSub out.data ("FAILED").data = true ∨ code ≠ 0
              · exact hf
              · exfalso
                rw [not_or] at hf
                obtain ⟨hf1, hf2⟩ := hf
                rw [Bool.not_eq_true] at hf1
                rw [not_ne_iff] at hf2
                subst hf2
                simp [verify_checksums, hm, hr, hrel, ht, hmd, hf1] at h
  · rintro ⟨content, code, out, hm, hr, hrel, ht, hmd, hfail⟩
    rcases hfail with hfail | hfail
    · simp [verify_checksums, hm, hr, hrel, ht, hmd, hfail]
    · simp [verify_checksums, hm, hr, hrel, ht, hmd, hfail]

/-- C2: on the fresh-download path (local version differs from the latest),
if the checksum manifest exists, lists a downloaded file, and the hash
check reports a mismatch, then verification fails and `run` exits 1
immediately after the three download attempts: no scale-up occurs, the
pipeline of the import step is never entered, and no effect touches the persisted
checkpoint (so it stays in its initial state). -/
theorem run_checksum_gate (env : RunEnv) (d content : String) (code : Nat)
    (out : String)
    (h0 : env.rebuildOnly = false)
    (h1 : env.latestDate = some d)
    (h2 : env.currentDate ≠ some d)
    (h3 : env.dlXml = true)
    (h4 : env.dlIndex = true)
    (hm : env.venv.manifestContent = some content)
    (hr : env.venv.readRaises = false)
    (hrel : relevantLines d content ≠ [])
    (ht : env.venv.tmpWriteRaises = false)
    (hmd : env.venv.md5run = some (code, out))
    (hfail : containsSub out.data ("FAILED").data = true ∨ code ≠ 0) :
    verify_checksums d env.venv = false ∧
    run env = (1, [Effect.download "xml", Effect.download "index",
                   Effect.download "md5"]) ∧
    Effect.scaleUp ∉ (run env).2 ∧
    (run env).2.all (fun e => !(touchesCk e)) = true := by
  have hv : verify_checksums d env.venv = false :=
    (verify_checksums_false_iff d env.venv).mpr
      ⟨content, code, out, hm, hr, hrel, ht, hmd, hfail⟩
  have hrun : run env = (1, [Effect.download "xml", Effect.download "index",
      Effect.download "md5"]) := by
    simp [run, runDownloadPhase, h0, h1, h2, h3, h4, hv]
  refine ⟨hv, hrun, ?_, ?_⟩
  · rw [hrun]; decide
  · rw [hrun]; decide

/-- C2 witness: the concrete fresh-download run `envChecksumGate` whose
manifest lists the archive with a mismatching hash. -/
theorem run_checksum_gate_witness :
    verify_checksums "20240901" envChecksumGate.venv = false ∧
    run envChecksumGate = (1, [Effect.download "xml", Effect.download "index",
                               Effect.download "md5"]) ∧
    Effect.scaleUp ∉ (run envChecksumGate).2 ∧
    (run envChecksumGate).2.all (fun e => !(touchesCk e)) = true :=
  run_checksum_gate envChecksumGate "20240901"
    "0123abcd  enwiki-20240901-pages-articles-multistream.xml.bz2" 1
    "enwiki-20240901-pages-articles-multistream.xml.bz2: FAILED"
    rfl rfl (by decide) rfl rfl rfl rfl (by decide) rfl rfl (Or.inr (by decide))

/-- C8: when the local dump version equals the latest remote version, no
force flag is set, and the persisted checkpoint records status `completed`
for that version, `run` exits 0 with an empty effect trace: zero downloads
and zero mutations. -/
theorem run_idempotent_completed (env : RunEnv) (d : String) (r : CheckRec)
    (h0 : env.rebuildOnly = false)
    (h1 : env.latestDate = some d)
    (h2 : env.currentDate = some d)
    (h3 : env.force = false)
    (h4 : env.ckFile = CkFile.valid r)
    (h5 : r.dumpDate = some d)
    (h6 : r.status = "completed") :
    run env = (0, []) := by
  simp [run, load_progress, h0, h1, h2, h3, h4, h5, h6]

/-- C8 witness: the concrete up-to-date, completed run `envCompleted`. -/
theorem run_idempotent_completed_witness : run envCompleted = (0, []) :=
  run_idempotent_completed envCompleted "20240901"
    { status := "completed", dumpDate := some "20240901" }
    rfl rfl rfl rfl rfl rfl rfl
